import Mathlib

/-!
Verification of the cursor/checkpoint core of `yap` (`src/types.rs`).

The embedding below mirrors the two concrete `Tokens` implementations:

* `SliceTokens` — the element-slice cursor returned by `into_tokens()` on a
  borrowed slice `&[Item]`.  Borrowed slices are modelled as `List α` and
  references to items as the item values themselves.
* `StrTokens` — the text cursor returned by `into_tokens()` on a `&str`.
  The `&str` is modelled as its list of UTF-8 bytes (`List Nat`), with the
  byte-offset cursor kept exactly as in the source.

Rust operations that can panic (slice/str range indexing such as
`&self.slice[..self.cursor]`, which panics when the index is out of range or
not on a char boundary) are modelled as `Option`-returning functions where
`none` is the panic branch.
-/

/-- The element-slice cursor: `struct SliceTokens<'a, Item> { slice, cursor }`. -/
structure SliceTokens (α : Type) where
  slice : List α
  cursor : Nat

/-- Source: `pub struct SliceTokensCheckpoint(usize);` -/
structure SliceTokensCheckpoint where
  val : Nat

/-- Source `SliceTokens::consumed`: `&self.slice[..self.cursor]`.  Rust range
indexing panics when `cursor > slice.len()`; the panic is `none`. -/
def SliceTokens.consumed {α : Type} (t : SliceTokens α) : Option (List α) :=
  if t.cursor ≤ t.slice.length then some (t.slice.take t.cursor) else none

/-- Source `SliceTokens::remaining`: `&self.slice[self.cursor..]`, panic as `none`. -/
def SliceTokens.remaining {α : Type} (t : SliceTokens α) : Option (List α) :=
  if t.cursor ≤ t.slice.length then some (t.slice.drop t.cursor) else none

/-- Source `From<SliceTokens<'a, Item>> for &'a [Item]`: returns `toks.slice`. -/
def SliceTokens.toSlice {α : Type} (t : SliceTokens α) : List α :=
  t.slice

/-- Source `Iterator::next` for `SliceTokens`:
`let res = self.slice.get(self.cursor); self.cursor += 1; res`.
Note the cursor is incremented even when `get` returned `None`. -/
def SliceTokens.next {α : Type} (t : SliceTokens α) : Option α × SliceTokens α :=
  (t.slice[t.cursor]?, { t with cursor := t.cursor + 1 })

/-- Source `Tokens::save_checkpoint` for `SliceTokens`. -/
def SliceTokens.save_checkpoint {α : Type} (t : SliceTokens α) : SliceTokensCheckpoint :=
  ⟨t.cursor⟩

/-- Source `Tokens::rewind_to_checkpoint` for `SliceTokens`: `self.cursor = checkpoint.0`. -/
def SliceTokens.rewind_to_checkpoint {α : Type} (t : SliceTokens α)
    (cp : SliceTokensCheckpoint) : SliceTokens α :=
  { t with cursor := cp.val }

/-- Source `IntoTokens for &'a [Item]`: `SliceTokens { slice: self, cursor: 0 }`. -/
def SliceTokens.into_tokens {α : Type} (s : List α) : SliceTokens α :=
  { slice := s, cursor := 0 }

/-- Iterate `next` a given number of times, keeping only the cursor state. -/
def SliceTokens.nextN {α : Type} (t : SliceTokens α) : Nat → SliceTokens α
  | 0 => t
  | n + 1 => SliceTokens.nextN t.next.2 n

/-- The text cursor: `struct StrTokens<'a> { str, cursor }`; the borrowed
`&str` is its UTF-8 byte sequence, `cursor` the byte offset. -/
structure StrTokens where
  str : List Nat
  cursor : Nat

/-- Source: `pub struct StrTokensCheckpoint(usize);` -/
structure StrTokensCheckpoint where
  val : Nat

/-- Model of `str::is_char_boundary(index)`: true at 0, at the byte length, and at any
in-range byte that is not a UTF-8 continuation byte (`0x80..0xBF`). -/
def isCharBoundary (s : List Nat) (i : Nat) : Bool :=
  if i = 0 then true
  else
    match s[i]? with
    | none => decide (i = s.length)
    | some b => decide (b < 0x80) || decide (0xC0 ≤ b)

/-- The boundary scan inside `StrTokens::next`:
`while !self.str.is_char_boundary(next_char_boundary) { next_char_boundary += 1 }`.
`fuel` counts the offsets left before the end of the buffer, where the scan is
sure to stop because the byte length is always a boundary: for a scan starting
at `j ≤ length` the two base cases agree with the loop (fuel reaches 0 exactly
at the length offset, which the boundary test would accept as well), and a
start past the length — where the loop in the source would never exit — does
not occur. -/
def findBoundaryFrom (s : List Nat) : Nat → Nat → Nat
  | j, 0 => j
  | j, f + 1 => if isCharBoundary s j then j else findBoundaryFrom s (j + 1) f

/-- The boundary scan from offset `j`, with exactly the fuel the in-range
`while` loop can use: `s.length - j` further increments reach the end. -/
def findBoundary (s : List Nat) (j : Nat) : Nat :=
  findBoundaryFrom s j (s.length - j)

/-- Decode the first UTF-8 scalar value of a byte sequence
(`.chars().next()` on the sliced `&str`); `none` when no valid scalar starts
the sequence. -/
def utf8DecodeFirst (l : List Nat) : Option Nat :=
  match l with
  | [] => none
  | b0 :: rest =>
    if b0 < 0x80 then some b0
    else if b0 < 0xC0 then none
    else if b0 < 0xE0 then
      match rest with
      | b1 :: _ => some ((b0 - 0xC0) * 0x40 + (b1 - 0x80))
      | [] => none
    else if b0 < 0xF0 then
      match rest with
      | b1 :: b2 :: _ => some (((b0 - 0xE0) * 0x40 + (b1 - 0x80)) * 0x40 + (b2 - 0x80))
      | _ => none
    else
      match rest with
      | b1 :: b2 :: b3 :: _ =>
        some ((((b0 - 0xF0) * 0x40 + (b1 - 0x80)) * 0x40 + (b2 - 0x80)) * 0x40 + (b3 - 0x80))
      | _ => none

/-- Source `StrTokens::consumed`: `&self.str[..self.cursor]`.  Rust `str` range
indexing panics unless the bound is a char boundary; the panic is `none`. -/
def StrTokens.consumed (t : StrTokens) : Option (List Nat) :=
  if isCharBoundary t.str t.cursor then some (t.str.take t.cursor) else none

/-- Source `StrTokens::remaining`: `&self.str[self.cursor..]`, panic as `none`. -/
def StrTokens.remaining (t : StrTokens) : Option (List Nat) :=
  if isCharBoundary t.str t.cursor then some (t.str.drop t.cursor) else none

/-- Source `From<StrTokens<'a>> for &'a str`: returns `toks.str`. -/
def StrTokens.toStr (t : StrTokens) : List Nat :=
  t.str

/-- Source `Iterator::next` for `StrTokens`: exhaustion check, boundary scan, decode
of the bytes between the old offset and the found boundary, advance.  The
`.unwrap()` on the decoded char is modelled with a default that is never used
for the boundary-aligned slices of valid UTF-8 reached in practice. -/
def StrTokens.next (t : StrTokens) : Option Nat × StrTokens :=
  if t.cursor = t.str.length then (none, t)
  else
    let b := findBoundary t.str (t.cursor + 1)
    let c := utf8DecodeFirst ((t.str.drop t.cursor).take (b - t.cursor))
    (some (c.getD 0), { t with cursor := b })

/-- Source `Tokens::save_checkpoint` for `StrTokens`. -/
def StrTokens.save_checkpoint (t : StrTokens) : StrTokensCheckpoint :=
  ⟨t.cursor⟩

/-- Source `Tokens::rewind_to_checkpoint` for `StrTokens`: `self.cursor = checkpoint.0`. -/
def StrTokens.rewind_to_checkpoint (t : StrTokens) (cp : StrTokensCheckpoint) : StrTokens :=
  { t with cursor := cp.val }

/-- Source `IntoTokens for &'a str`: `StrTokens { str: self, cursor: 0 }`. -/
def StrTokens.into_tokens (s : List Nat) : StrTokens :=
  { str := s, cursor := 0 }

/-- Iterate `StrTokens.next` a given number of times. -/
def StrTokens.nextN (t : StrTokens) : Nat → StrTokens
  | 0 => t
  | n + 1 => StrTokens.nextN t.next.2 n

/-- States of the slice cursor reachable from `into_tokens s` by `next`,
`save_checkpoint` (no state change) and `rewind_to_checkpoint` with a
checkpoint saved from a state of the same cursor. -/
inductive SliceTokens.Reach {α : Type} (s : List α) : SliceTokens α → Prop where
  | init : Reach s (SliceTokens.into_tokens s)
  | produce {t : SliceTokens α} : Reach s t → Reach s t.next.2
  | rewind {t t' : SliceTokens α} : Reach s t → Reach s t' →
      Reach s (t'.rewind_to_checkpoint t.save_checkpoint)

/-- States of the text cursor reachable from `into_tokens s` by `next`,
`save_checkpoint` and `rewind_to_checkpoint` with a same-cursor checkpoint. -/
inductive StrTokens.Reach (s : List Nat) : StrTokens → Prop where
  | init : Reach s (StrTokens.into_tokens s)
  | produce {t : StrTokens} : Reach s t → Reach s t.next.2
  | rewind {t t' : StrTokens} : Reach s t → Reach s t' →
      Reach s (t'.rewind_to_checkpoint t.save_checkpoint)

/-- UTF-8 bytes of the test input `"a😀b"` (`'a'` = 1 byte, `'😀'` = 4 bytes
`F0 9F 98 80`, `'b'` = 1 byte). -/
def aEmojiB : List Nat := [0x61, 0xF0, 0x9F, 0x98, 0x80, 0x62]

/-- UTF-8 bytes of `"😀b"`. -/
def emojiB : List Nat := [0xF0, 0x9F, 0x98, 0x80, 0x62]

/-! Helper lemmas about char boundaries and the boundary scan. -/

/-- Offset 0 is always a char boundary. -/
lemma isCharBoundary_zero (s : List Nat) : isCharBoundary s 0 = true := by
  simp [isCharBoundary]

/-- The byte length is always a char boundary. -/
lemma isCharBoundary_length (s : List Nat) : isCharBoundary s s.length = true := by
  unfold isCharBoundary
  rcases Nat.eq_zero_or_pos s.length with h | h
  · simp [h]
  · rw [if_neg (by omega), List.getElem?_eq_none (Nat.le_refl _)]
    simp

/-- A char boundary never lies past the byte length. -/
lemma isCharBoundary_le_length {s : List Nat} {i : Nat}
    (h : isCharBoundary s i = true) : i ≤ s.length := by
  by_contra hgt
  rw [isCharBoundary, if_neg (by omega), List.getElem?_eq_none (by omega)] at h
  simp at h
  omega

/-- With fuel equal to the distance to the end of the buffer, the boundary
scan stops at a char boundary that is at most the byte length. -/
lemma findBoundaryFrom_spec (s : List Nat) :
    ∀ (f j : Nat), j + f = s.length →
      isCharBoundary s (findBoundaryFrom s j f) = true ∧ findBoundaryFrom s j f ≤ s.length := by
  intro f
  induction f with
  | zero =>
    intro j hj
    simp only [findBoundaryFrom]
    have hj' : j = s.length := by omega
    exact ⟨hj' ▸ isCharBoundary_length s, by omega⟩
  | succ f ih =>
    intro j hj
    simp only [findBoundaryFrom]
    split
    · next hb => exact ⟨hb, by omega⟩
    · exact ih (j + 1) (by omega)

/-- The boundary scan from an in-range offset stops at a char boundary that
is at most the byte length. -/
lemma findBoundary_spec {s : List Nat} {j : Nat} (hj : j ≤ s.length) :
    isCharBoundary s (findBoundary s j) = true ∧ findBoundary s j ≤ s.length :=
  findBoundaryFrom_spec s (s.length - j) j (by omega)

/-! Helper lemmas about the cursor operations. -/

/-- Producing items never changes the underlying slice. -/
lemma SliceTokens.slice_nextN {α : Type} (t : SliceTokens α) (n : Nat) :
    (t.nextN n).slice = t.slice := by
  induction n generalizing t with
  | zero => rfl
  | succ n ih => exact ih t.next.2

/-- Each `next` call on the slice cursor adds one to the cursor. -/
lemma SliceTokens.cursor_nextN {α : Type} (t : SliceTokens α) (n : Nat) :
    (t.nextN n).cursor = t.cursor + n := by
  induction n generalizing t with
  | zero => rfl
  | succ n ih =>
    have h := ih t.next.2
    simp only [SliceTokens.nextN]
    rw [h]
    show t.cursor + 1 + n = t.cursor + (n + 1)
    omega

/-- Rewinding to a checkpoint saved before any number of `next` calls
restores the slice cursor state exactly. -/
lemma SliceTokens.rewind_nextN_slice_eq {α : Type} (t : SliceTokens α) (n : Nat) :
    (t.nextN n).rewind_to_checkpoint t.save_checkpoint = t := by
  show (⟨(t.nextN n).slice, t.cursor⟩ : SliceTokens α) = t
  rw [SliceTokens.slice_nextN]

/-- One `next` call on the text cursor keeps the underlying bytes. -/
lemma StrTokens.str_next (t : StrTokens) : t.next.2.str = t.str := by
  unfold StrTokens.next
  split
  · rfl
  · rfl

/-- Producing characters never changes the underlying bytes. -/
lemma StrTokens.str_nextN (t : StrTokens) (n : Nat) : (t.nextN n).str = t.str := by
  induction n generalizing t with
  | zero => rfl
  | succ n ih =>
    show ((t.next.2).nextN n).str = t.str
    rw [ih t.next.2, StrTokens.str_next]

/-- Rewinding to a checkpoint saved before any number of `next` calls
restores the text cursor state exactly. -/
lemma StrTokens.rewind_nextN_str_eq (t : StrTokens) (n : Nat) :
    (t.nextN n).rewind_to_checkpoint t.save_checkpoint = t := by
  show (⟨(t.nextN n).str, t.cursor⟩ : StrTokens) = t
  rw [StrTokens.str_nextN]

/-- The state reached by one text-cursor `next` call, without the item. -/
lemma StrTokens.next_state (t : StrTokens) :
    t.next.2 = if t.cursor = t.str.length then t
               else { t with cursor := findBoundary t.str (t.cursor + 1) } := by
  unfold StrTokens.next
  split
  · rfl
  · rfl

/-- Every reachable slice-cursor state still holds the original slice. -/
lemma SliceTokens.reach_slice {α : Type} {s : List α} {st : SliceTokens α}
    (h : SliceTokens.Reach s st) : st.slice = s := by
  induction h with
  | init => rfl
  | produce _ ih => exact ih
  | rewind _ _ _ ih2 => exact ih2

/-- Every reachable text-cursor state still holds the original bytes and has
its byte offset on a char boundary. -/
lemma StrTokens.reach_inv {s : List Nat} {st : StrTokens}
    (h : StrTokens.Reach s st) :
    st.str = s ∧ isCharBoundary st.str st.cursor = true := by
  induction h with
  | init => exact ⟨rfl, isCharBoundary_zero s⟩
  | produce hr ih =>
    rename_i t
    obtain ⟨hs, hb⟩ := ih
    refine ⟨by rw [StrTokens.str_next]; exact hs, ?_⟩
    by_cases hc : t.cursor = t.str.length
    · rw [StrTokens.next_state, if_pos hc]
      exact hb
    · have hle := isCharBoundary_le_length hb
      rw [StrTokens.next_state, if_neg hc]
      exact (findBoundary_spec (show t.cursor + 1 ≤ t.str.length by omega)).1
  | rewind hr1 hr2 ih1 ih2 =>
    rename_i t t'
    refine ⟨ih2.1, ?_⟩
    show isCharBoundary t'.str t.cursor = true
    rw [ih2.1, ← ih1.1]
    exact ih1.2

/-! Supporting facts tying the byte literals to the strings they encode. -/

/-- The byte literal `aEmojiB` is the UTF-8 encoding of `"a😀b"`. -/
theorem aEmojiB_encodes : aEmojiB = ("a😀b").toUTF8.data.toList.map UInt8.toNat := by
  decide

/-- The byte literal `emojiB` is the UTF-8 encoding of `"😀b"`. -/
theorem emojiB_encodes : emojiB = ("😀b").toUTF8.data.toList.map UInt8.toNat := by
  decide

/-! The claims. -/

/-- C1: the spec states that producing past the end of input returns no more
items repeatedly without advancing the position.  The slice cursor violates
this: `SliceTokens::next` increments the cursor even when `get` returns
`None`, so on the already-exhausted cursor over `[]` the first `next` call
moves the cursor from 0 to 1 and a second one moves it to 2, although both
return `None`. -/
theorem c1_exhausted_next_advances_cursor :
    (SliceTokens.into_tokens ([] : List Nat)).cursor = 0
    ∧ (SliceTokens.into_tokens ([] : List Nat)).next.1 = none
    ∧ (SliceTokens.into_tokens ([] : List Nat)).next.2.cursor = 1
    ∧ (SliceTokens.into_tokens ([] : List Nat)).next.2.next.1 = none
    ∧ (SliceTokens.into_tokens ([] : List Nat)).next.2.next.2.cursor = 2 := by
  decide

/-- C5: over the UTF-8 bytes of `"a😀b"`, successive `next` calls on the text
cursor return exactly `'a'`, `'😀'`, `'b'` and then exhaustion, the byte
offset after the three steps is 1, 5, 6, and `remaining()` after consuming
`'a'` is the byte sequence of `"😀b"`. -/
theorem c5_utf8_boundary_steps :
    (StrTokens.into_tokens aEmojiB).next.1 = some ('a').toNat
    ∧ (StrTokens.into_tokens aEmojiB).next.2.cursor = 1
    ∧ (StrTokens.into_tokens aEmojiB).next.2.next.1 = some ('😀').toNat
    ∧ (StrTokens.into_tokens aEmojiB).next.2.next.2.cursor = 5
    ∧ (StrTokens.into_tokens aEmojiB).next.2.next.2.next.1 = some ('b').toNat
    ∧ (StrTokens.into_tokens aEmojiB).next.2.next.2.next.2.cursor = 6
    ∧ (StrTokens.into_tokens aEmojiB).next.2.next.2.next.2.next.1 = none
    ∧ (StrTokens.into_tokens aEmojiB).next.2.remaining = some emojiB := by
  decide

/-- C7: on empty inputs the first `next` call signals exhaustion for both
cursors.  The text cursor then still reports empty `consumed()` and full
(empty) `remaining()` as the claim states, but the slice cursor does not:
the exhausting call advanced its cursor to 1, after which `consumed()` and
`remaining()` hit the out-of-range indexing branch (modelled as `none`)
instead of returning the empty views. -/
theorem c7_empty_input_first_next :
    (SliceTokens.into_tokens ([] : List Nat)).next.1 = none
    ∧ (StrTokens.into_tokens []).next.1 = none
    ∧ (StrTokens.into_tokens []).next.2.consumed = some []
    ∧ (StrTokens.into_tokens []).next.2.remaining = some []
    ∧ (SliceTokens.into_tokens ([] : List Nat)).next.2.consumed = none
    ∧ (SliceTokens.into_tokens ([] : List Nat)).next.2.remaining = none := by
  decide

/-- C9: over the slice `[10, 20, 30]`, successive `next` calls yield
10, 20, 30 and then exhaustion, and after exactly two productions
`consumed()` is `[10, 20]` and `remaining()` is `[30]`. -/
theorem c9_slice_10_20_30 :
    (SliceTokens.into_tokens ([10, 20, 30] : List Nat)).next.1 = some 10
    ∧ (SliceTokens.into_tokens ([10, 20, 30] : List Nat)).next.2.next.1 = some 20
    ∧ (SliceTokens.into_tokens ([10, 20, 30] : List Nat)).next.2.next.2.next.1 = some 30
    ∧ (SliceTokens.into_tokens ([10, 20, 30] : List Nat)).next.2.next.2.next.2.next.1 = none
    ∧ (SliceTokens.into_tokens ([10, 20, 30] : List Nat)).next.2.next.2.consumed = some [10, 20]
    ∧ (SliceTokens.into_tokens ([10, 20, 30] : List Nat)).next.2.next.2.remaining = some [30] := by
  decide

/-- C2 (counterexample): the round-trip property as claimed fails at a
reachable state.  Over the source `[]`, one `next` call on the slice cursor
reaches a state whose cursor is 1, where `consumed()` takes the out-of-range
indexing branch, so no pair of views concatenates back to the source. -/
theorem c2_roundtrip_counterexample :
    SliceTokens.Reach ([] : List Nat) ((SliceTokens.into_tokens ([] : List Nat)).next.2)
    ∧ ¬ ∃ c r, ((SliceTokens.into_tokens ([] : List Nat)).next.2).consumed = some c
        ∧ ((SliceTokens.into_tokens ([] : List Nat)).next.2).remaining = some r
        ∧ c ++ r = ([] : List Nat) := by
  constructor
  · exact .produce .init
  · rintro ⟨c, r, hc, -, -⟩
    rw [show ((SliceTokens.into_tokens ([] : List Nat)).next.2).consumed = none from rfl] at hc
    exact Option.noConfusion hc

/-- C2 (amended): `consumed() ++ remaining() = S` holds at every reachable
state whose cursor has not been pushed past the end of the source — for the
slice cursor, every reachable state with `cursor ≤ length`; for the text
cursor, every reachable state without restriction. -/
theorem c2_roundtrip_amended :
    (∀ (α : Type) (s : List α) (st : SliceTokens α),
      SliceTokens.Reach s st → st.cursor ≤ st.slice.length →
      ∃ c r, st.consumed = some c ∧ st.remaining = some r ∧ c ++ r = s)
    ∧ (∀ (s : List Nat) (st : StrTokens),
      StrTokens.Reach s st →
      ∃ c r, st.consumed = some c ∧ st.remaining = some r ∧ c ++ r = s) := by
  constructor
  · intro α s st h hle
    refine ⟨st.slice.take st.cursor, st.slice.drop st.cursor, ?_, ?_, ?_⟩
    · simp [SliceTokens.consumed, hle]
    · simp [SliceTokens.remaining, hle]
    · rw [List.take_append_drop]
      exact SliceTokens.reach_slice h
  · intro s st h
    obtain ⟨hs, hb⟩ := StrTokens.reach_inv h
    refine ⟨st.str.take st.cursor, st.str.drop st.cursor, ?_, ?_, ?_⟩
    · simp [StrTokens.consumed, hb]
    · simp [StrTokens.remaining, hb]
    · rw [List.take_append_drop]
      exact hs

/-- Witness for C2 (amended) at the states reached by one `next` call over
`[5]` (slice) and over the bytes of `"a😀b"` (text). -/
theorem c2_roundtrip_amended_witness :
    (SliceTokens.Reach ([5] : List Nat) ((SliceTokens.into_tokens ([5] : List Nat)).next.2)
      ∧ ((SliceTokens.into_tokens ([5] : List Nat)).next.2).cursor
          ≤ ((SliceTokens.into_tokens ([5] : List Nat)).next.2).slice.length
      ∧ ∃ c r, ((SliceTokens.into_tokens ([5] : List Nat)).next.2).consumed = some c
          ∧ ((SliceTokens.into_tokens ([5] : List Nat)).next.2).remaining = some r
          ∧ c ++ r = [5])
    ∧ (StrTokens.Reach aEmojiB ((StrTokens.into_tokens aEmojiB).next.2)
      ∧ ∃ c r, ((StrTokens.into_tokens aEmojiB).next.2).consumed = some c
          ∧ ((StrTokens.into_tokens aEmojiB).next.2).remaining = some r
          ∧ c ++ r = aEmojiB) :=
  ⟨⟨.produce .init, by decide,
    c2_roundtrip_amended.1 Nat [5] _ (.produce .init) (by decide)⟩,
   ⟨.produce .init,
    c2_roundtrip_amended.2 aEmojiB _ (.produce .init)⟩⟩

/-- C3: saving a checkpoint, producing any number of items, then rewinding to
that checkpoint restores `remaining()` to exactly its value at save time, for
both cursors. -/
theorem c3_checkpoint_rewind_restores_remaining :
    (∀ (α : Type) (t : SliceTokens α) (n : Nat),
      ((t.nextN n).rewind_to_checkpoint t.save_checkpoint).remaining = t.remaining)
    ∧ (∀ (t : StrTokens) (n : Nat),
      ((t.nextN n).rewind_to_checkpoint t.save_checkpoint).remaining = t.remaining) := by
  constructor
  · intro α t n
    rw [SliceTokens.rewind_nextN_slice_eq]
  · intro t n
    rw [StrTokens.rewind_nextN_str_eq]

/-- Witness for C3 over `[1, 2, 3]` with two productions between save and
rewind, and over the bytes of `"a😀b"` with one production. -/
theorem c3_checkpoint_rewind_restores_remaining_witness :
    ((((SliceTokens.into_tokens ([1, 2, 3] : List Nat)).nextN 2).rewind_to_checkpoint
        (SliceTokens.into_tokens ([1, 2, 3] : List Nat)).save_checkpoint).remaining
      = (SliceTokens.into_tokens ([1, 2, 3] : List Nat)).remaining)
    ∧ ((((StrTokens.into_tokens aEmojiB).nextN 1).rewind_to_checkpoint
        (StrTokens.into_tokens aEmojiB).save_checkpoint).remaining
      = (StrTokens.into_tokens aEmojiB).remaining) :=
  ⟨c3_checkpoint_rewind_restores_remaining.1 Nat (SliceTokens.into_tokens [1, 2, 3]) 2,
   c3_checkpoint_rewind_restores_remaining.2 (StrTokens.into_tokens aEmojiB) 1⟩

/-- C4: converting any reachable cursor state back to a source view yields
the full original buffer, however many productions or rewinds happened. -/
theorem c4_full_conversion_identity :
    (∀ (α : Type) (s : List α) (st : SliceTokens α),
      SliceTokens.Reach s st → SliceTokens.toSlice st = s)
    ∧ (∀ (s : List Nat) (st : StrTokens),
      StrTokens.Reach s st → StrTokens.toStr st = s) :=
  ⟨fun _ _ _ h => SliceTokens.reach_slice h,
   fun _ _ h => (StrTokens.reach_inv h).1⟩

/-- Witness for C4 at the states reached by one `next` call over `[10, 20]`
(slice) and over the bytes of `"a😀b"` (text). -/
theorem c4_full_conversion_identity_witness :
    (SliceTokens.Reach ([10, 20] : List Nat) ((SliceTokens.into_tokens ([10, 20] : List Nat)).next.2)
      ∧ SliceTokens.toSlice ((SliceTokens.into_tokens ([10, 20] : List Nat)).next.2) = [10, 20])
    ∧ (StrTokens.Reach aEmojiB ((StrTokens.into_tokens aEmojiB).next.2)
      ∧ StrTokens.toStr ((StrTokens.into_tokens aEmojiB).next.2) = aEmojiB) :=
  ⟨⟨.produce .init, c4_full_conversion_identity.1 Nat [10, 20] _ (.produce .init)⟩,
   ⟨.produce .init, c4_full_conversion_identity.2 aEmojiB _ (.produce .init)⟩⟩

/-- C6: at every reachable text-cursor state the byte offset lies in
`0..=length` and on a char boundary (never inside a multi-byte character);
the invariant is preserved by `next`, `save_checkpoint` and
`rewind_to_checkpoint` with a same-cursor checkpoint, all of which the
reachability relation closes over. -/
theorem c6_text_cursor_boundary_invariant :
    ∀ (s : List Nat) (st : StrTokens), StrTokens.Reach s st →
      st.cursor ≤ st.str.length ∧ isCharBoundary st.str st.cursor = true := by
  intro s st h
  have hb := (StrTokens.reach_inv h).2
  exact ⟨isCharBoundary_le_length hb, hb⟩

/-- Witness for C6 at the state one `next` call past the start of the bytes
of `"a😀b"`. -/
theorem c6_text_cursor_boundary_invariant_witness :
    StrTokens.Reach aEmojiB ((StrTokens.into_tokens aEmojiB).next.2)
    ∧ ((StrTokens.into_tokens aEmojiB).next.2).cursor
        ≤ ((StrTokens.into_tokens aEmojiB).next.2).str.length
    ∧ isCharBoundary ((StrTokens.into_tokens aEmojiB).next.2).str
        ((StrTokens.into_tokens aEmojiB).next.2).cursor = true :=
  ⟨.produce .init, c6_text_cursor_boundary_invariant aEmojiB _ (.produce .init)⟩

/-- C8: over any slice and any byte sequence, `into_tokens` yields a cursor
at offset 0 whose `consumed()` is empty and whose `remaining()` is the full
source, with no failure mode. -/
theorem c8_into_tokens_initial_state :
    (∀ (α : Type) (s : List α),
      (SliceTokens.into_tokens s).cursor = 0
      ∧ (SliceTokens.into_tokens s).consumed = some []
      ∧ (SliceTokens.into_tokens s).remaining = some s)
    ∧ (∀ s : List Nat,
      (StrTokens.into_tokens s).cursor = 0
      ∧ (StrTokens.into_tokens s).consumed = some []
      ∧ (StrTokens.into_tokens s).remaining = some s) := by
  constructor
  · intro α s
    refine ⟨rfl, ?_, ?_⟩
    · simp [SliceTokens.consumed, SliceTokens.into_tokens]
    · simp [SliceTokens.remaining, SliceTokens.into_tokens]
  · intro s
    refine ⟨rfl, ?_, ?_⟩
    · simp [StrTokens.consumed, StrTokens.into_tokens, isCharBoundary]
    · simp [StrTokens.remaining, StrTokens.into_tokens, isCharBoundary]

/-- Witness for C8 over the slice `[7]` and the bytes of `"a😀b"`. -/
theorem c8_into_tokens_initial_state_witness :
    ((SliceTokens.into_tokens ([7] : List Nat)).cursor = 0
      ∧ (SliceTokens.into_tokens ([7] : List Nat)).consumed = some []
      ∧ (SliceTokens.into_tokens ([7] : List Nat)).remaining = some [7])
    ∧ ((StrTokens.into_tokens aEmojiB).cursor = 0
      ∧ (StrTokens.into_tokens aEmojiB).consumed = some []
      ∧ (StrTokens.into_tokens aEmojiB).remaining = some aEmojiB) :=
  ⟨c8_into_tokens_initial_state.1 Nat [7],
   c8_into_tokens_initial_state.2 aEmojiB⟩

/-- C10: calling `next` on an already-exhausted slice cursor returns `None`
yet still increments the cursor, leaving it strictly past the slice length;
from then on (under further `next` calls) `consumed()` and `remaining()`
always take the out-of-range indexing branch (modelled as `none`). -/
theorem c10_exhausted_next_overruns :
    ∀ (α : Type) (t : SliceTokens α), t.slice.length ≤ t.cursor →
      t.next.1 = none
      ∧ t.next.2.cursor = t.cursor + 1
      ∧ t.slice.length < t.next.2.cursor
      ∧ ∀ n : Nat, (t.next.2.nextN n).consumed = none
          ∧ (t.next.2.nextN n).remaining = none := by
  intro α t h
  refine ⟨List.getElem?_eq_none h, rfl, ?_, ?_⟩
  · show t.slice.length < t.cursor + 1
    omega
  · intro n
    have hcur : (t.next.2.nextN n).cursor = t.cursor + 1 + n :=
      SliceTokens.cursor_nextN t.next.2 n
    have hsl : (t.next.2.nextN n).slice = t.slice :=
      SliceTokens.slice_nextN t.next.2 n
    have hnle : ¬ ((t.next.2.nextN n).cursor ≤ (t.next.2.nextN n).slice.length) := by
      rw [hcur, hsl]
      omega
    constructor
    · simp [SliceTokens.consumed, hnle]
    · simp [SliceTokens.remaining, hnle]

/-- Witness for C10 at the already-exhausted cursor over the empty slice. -/
theorem c10_exhausted_next_overruns_witness :
    (SliceTokens.into_tokens ([] : List Nat)).slice.length
        ≤ (SliceTokens.into_tokens ([] : List Nat)).cursor
    ∧ ((SliceTokens.into_tokens ([] : List Nat)).next.1 = none
      ∧ (SliceTokens.into_tokens ([] : List Nat)).next.2.cursor
          = (SliceTokens.into_tokens ([] : List Nat)).cursor + 1
      ∧ (SliceTokens.into_tokens ([] : List Nat)).slice.length
          < (SliceTokens.into_tokens ([] : List Nat)).next.2.cursor
      ∧ ∀ n : Nat,
          ((SliceTokens.into_tokens ([] : List Nat)).next.2.nextN n).consumed = none
          ∧ ((SliceTokens.into_tokens ([] : List Nat)).next.2.nextN n).remaining = none) :=
  ⟨Nat.le_refl 0,
   c10_exhausted_next_overruns Nat (SliceTokens.into_tokens []) (Nat.le_refl 0)⟩
